import Mathlib

/-!
Shallow embedding of `src/ztest.py` (class `TwoSampleZTest`).

Real numbers are modelled by `ℚ` so that every definition is executable.
The external statistics library (`scipy.stats`) is modelled by a record of
provider functions that may fail, mirroring the spec's "external statistics
provider" and "external distribution provider" collaborators; a Python
exception raised by a library call or by the interpreter is modelled as an
`Except.error`.
-/

/-- Errors that can arise while running the test.  `stateError` embeds the
exception Python raises at `self.p_value < self.alpha` when `p_value` is
still `None` (a comparison of `None` with a number), i.e. the failure of
calling the verdict step before the p-value has been computed; the spec's
taxonomy calls this `StateError`.  `computationError` embeds a failure
raised inside an external library call. -/
inductive Err where
  | stateError : Err
  | computationError : String → Err
deriving DecidableEq

/-- External collaborators of the runner: `ttest_ind` embeds
`scipy.stats.ttest_ind` returning a `(statistic, p_value)` pair, and
`norm_ppf` embeds `scipy.stats.norm.ppf` (inverse CDF of the standard
normal).  Both are abstract and may fail. -/
structure StatsProviders where
  ttest_ind : List ℚ → List ℚ → Except Err (ℚ × ℚ)
  norm_ppf : ℚ → Except Err ℚ

/-- State of a `TwoSampleZTest` object: the constructor arguments
`sample1`, `sample2`, `alpha` and the three cached fields `z_stat`,
`p_value`, `z_critical`, each `None` until computed
(`src/ztest.py` lines 10-24). -/
structure TwoSampleZTest where
  sample1 : List ℚ
  sample2 : List ℚ
  alpha : ℚ
  z_stat : Option ℚ
  p_value : Option ℚ
  z_critical : Option ℚ
deriving DecidableEq

/-- The `__init__` constructor: stores the samples and alpha, leaves the
three cached fields `None` (`src/ztest.py` lines 19-24). -/
def TwoSampleZTest.init (s1 s2 : List ℚ) (alpha : ℚ) : TwoSampleZTest :=
  { sample1 := s1, sample2 := s2, alpha := alpha,
    z_stat := none, p_value := none, z_critical := none }

/-- `calculate_z_statistic` (`src/ztest.py` lines 26-34):
`self.z_stat, _ = stats.ttest_ind(self.sample1, self.sample2)` then
`return self.z_stat`.  A failure of the library call propagates. -/
def TwoSampleZTest.calculate_z_statistic (prov : StatsProviders)
    (st : TwoSampleZTest) : Except Err (ℚ × TwoSampleZTest) :=
  match prov.ttest_ind st.sample1 st.sample2 with
  | .error e => .error e
  | .ok (z, _) => .ok (z, { st with z_stat := some z })

/-- `calculate_p_value` (`src/ztest.py` lines 36-44):
`_, self.p_value = stats.ttest_ind(self.sample1, self.sample2)` then
`return self.p_value`.  A failure of the library call propagates. -/
def TwoSampleZTest.calculate_p_value (prov : StatsProviders)
    (st : TwoSampleZTest) : Except Err (ℚ × TwoSampleZTest) :=
  match prov.ttest_ind st.sample1 st.sample2 with
  | .error e => .error e
  | .ok (_, p) => .ok (p, { st with p_value := some p })

/-- `calculate_critical_value` (`src/ztest.py` lines 46-54):
`self.z_critical = stats.norm.ppf(1 - self.alpha/2)` then
`return self.z_critical`.  A failure of the library call propagates. -/
def TwoSampleZTest.calculate_critical_value (prov : StatsProviders)
    (st : TwoSampleZTest) : Except Err (ℚ × TwoSampleZTest) :=
  match prov.norm_ppf (1 - st.alpha / 2) with
  | .error e => .error e
  | .ok c => .ok (c, { st with z_critical := some c })

/-- The string returned on `self.p_value < self.alpha`
(`src/ztest.py` line 64). -/
def rejectMsg : String :=
  "Reject null hypothesis. There is a significant difference between the means."

/-- The string returned otherwise (`src/ztest.py` line 66). -/
def failToRejectMsg : String :=
  "Fail to reject null hypothesis. There is no significant difference between the means."

/-- The string returned by `run_z_test` when an exception was caught
(`src/ztest.py` line 83). -/
def errorMsg : String :=
  "Error occurred during hypothesis test. Please check the input data."

/-- `compare_p_value_with_alpha` (`src/ztest.py` lines 56-66): compares
`self.p_value` with `self.alpha` and returns one of two fixed strings.
It reads no other field and mutates nothing.  When `p_value` is still
`None`, the comparison `None < alpha` raises (modelled as
`Err.stateError`). -/
def TwoSampleZTest.compare_p_value_with_alpha (st : TwoSampleZTest) :
    Except Err String :=
  match st.p_value with
  | none => .error Err.stateError
  | some p => if p < st.alpha then .ok rejectMsg else .ok failToRejectMsg

/-- `run_z_test` (`src/ztest.py` lines 68-84): runs the four steps in
order inside `try`; on any failure the steps already executed keep their
effect on the object and the fixed error string is returned; on success
the verdict string is returned.  The whole call is total: no error
escapes the `except Exception` block.  Returns the result string paired
with the final object state. -/
def TwoSampleZTest.run_z_test (prov : StatsProviders)
    (st : TwoSampleZTest) : String × TwoSampleZTest :=
  match st.calculate_z_statistic prov with
  | .error _ => (errorMsg, st)
  | .ok (_, st1) =>
    match st1.calculate_p_value prov with
    | .error _ => (errorMsg, st1)
    | .ok (_, st2) =>
      match st2.calculate_critical_value prov with
      | .error _ => (errorMsg, st2)
      | .ok (_, st3) =>
        match st3.compare_p_value_with_alpha with
        | .error _ => (errorMsg, st3)
        | .ok r => (r, st3)

/-- Labels for the four orchestrated method invocations of `run_z_test`,
used to state the call order. -/
inductive Step where
  | computeStatistic : Step
  | computePValue : Step
  | computeCriticalValue : Step
  | verdict : Step
deriving DecidableEq

/-- Instrumented copy of `run_z_test` recording, in invocation order, each
orchestrated method that was entered, alongside the result and final
state of the plain `run_z_test`. -/
def TwoSampleZTest.run_z_test_trace (prov : StatsProviders)
    (st : TwoSampleZTest) : List Step × String × TwoSampleZTest :=
  match st.calculate_z_statistic prov with
  | .error _ => ([Step.computeStatistic], errorMsg, st)
  | .ok (_, st1) =>
    match st1.calculate_p_value prov with
    | .error _ => ([Step.computeStatistic, Step.computePValue], errorMsg, st1)
    | .ok (_, st2) =>
      match st2.calculate_critical_value prov with
      | .error _ =>
        ([Step.computeStatistic, Step.computePValue,
          Step.computeCriticalValue], errorMsg, st2)
      | .ok (_, st3) =>
        match st3.compare_p_value_with_alpha with
        | .error _ =>
          ([Step.computeStatistic, Step.computePValue,
            Step.computeCriticalValue, Step.verdict], errorMsg, st3)
        | .ok r =>
          ([Step.computeStatistic, Step.computePValue,
            Step.computeCriticalValue, Step.verdict], r, st3)

/-- Sample-and-alpha preservation between two states: the constructor
inputs are untouched. -/
def preservesInputs (st st' : TwoSampleZTest) : Prop :=
  st'.sample1 = st.sample1 ∧ st'.sample2 = st.sample2 ∧ st'.alpha = st.alpha

/-- A provider whose two-sample test and quantile function always succeed
with fixed values; used to instantiate universally quantified theorems. -/
def constProv (z p c : ℚ) : StatsProviders :=
  { ttest_ind := fun _ _ => .ok (z, p), norm_ppf := fun _ => .ok c }

/-- A provider whose two-sample test fails (degenerate input data) while
the quantile function succeeds. -/
def failTtestProv : StatsProviders :=
  { ttest_ind := fun _ _ => .error (Err.computationError "degenerate samples"),
    norm_ppf := fun _ => .ok (196/100) }

/-- A provider whose quantile function fails while the two-sample test
succeeds. -/
def failPpfProv : StatsProviders :=
  { ttest_ind := fun _ _ => .ok (-2, 1/100),
    norm_ppf := fun _ => .error (Err.computationError "ppf domain") }

/-- Any successful call of `compare_p_value_with_alpha` yields one of the
two fixed verdict strings. -/
theorem TwoSampleZTest.compare_ok_cases (st : TwoSampleZTest) (r : String)
    (h : st.compare_p_value_with_alpha = .ok r) :
    r = rejectMsg ∨ r = failToRejectMsg := by
  unfold TwoSampleZTest.compare_p_value_with_alpha at h
  split at h
  · exact absurd h (by simp)
  · split at h
    · exact Or.inl (by injection h with h; exact h.symm)
    · exact Or.inr (by injection h with h; exact h.symm)

/-- C1: for every pair of samples with at least 2 observations each and
every alpha in (0,1), `run_z_test` returns exactly one of the three fixed
strings (reject verdict, fail-to-reject verdict, or the error string); the
embedding of `run_z_test` is a total function, so no error ever escapes to
the caller. -/
theorem c1_run_returns_one_of_three_strings (prov : StatsProviders)
    (st : TwoSampleZTest) (h1 : 2 ≤ st.sample1.length)
    (h2 : 2 ≤ st.sample2.length) (h3 : 0 < st.alpha) (h4 : st.alpha < 1) :
    (st.run_z_test prov).1 = rejectMsg ∨
    (st.run_z_test prov).1 = failToRejectMsg ∨
    (st.run_z_test prov).1 = errorMsg := by
  unfold TwoSampleZTest.run_z_test
  split
  · right; right; rfl
  · split
    · right; right; rfl
    · split
      · right; right; rfl
      · split
        · right; right; rfl
        · rename_i r hcmp
          rcases TwoSampleZTest.compare_ok_cases _ _ hcmp with h | h
          · exact Or.inl h
          · exact Or.inr (Or.inl h)

/-- C1 witness: a concrete instantiation with two 2-element samples and
alpha 1/20. -/
theorem c1_witness :
    2 ≤ (TwoSampleZTest.init [1, 2] [3, 4] (5/100)).sample1.length ∧
    2 ≤ (TwoSampleZTest.init [1, 2] [3, 4] (5/100)).sample2.length ∧
    0 < (TwoSampleZTest.init [1, 2] [3, 4] (5/100)).alpha ∧
    (TwoSampleZTest.init [1, 2] [3, 4] (5/100)).alpha < 1 ∧
    (((TwoSampleZTest.init [1, 2] [3, 4] (5/100)).run_z_test
        (constProv 1 (2/100) (196/100))).1 = rejectMsg ∨
     ((TwoSampleZTest.init [1, 2] [3, 4] (5/100)).run_z_test
        (constProv 1 (2/100) (196/100))).1 = failToRejectMsg ∨
     ((TwoSampleZTest.init [1, 2] [3, 4] (5/100)).run_z_test
        (constProv 1 (2/100) (196/100))).1 = errorMsg) :=
  ⟨by norm_num [TwoSampleZTest.init], by norm_num [TwoSampleZTest.init],
   by norm_num [TwoSampleZTest.init], by norm_num [TwoSampleZTest.init],
   c1_run_returns_one_of_three_strings (constProv 1 (2/100) (196/100))
     (TwoSampleZTest.init [1, 2] [3, 4] (5/100))
     (by norm_num [TwoSampleZTest.init]) (by norm_num [TwoSampleZTest.init])
     (by norm_num [TwoSampleZTest.init]) (by norm_num [TwoSampleZTest.init])⟩

/-- The two verdict strings of the source differ. -/
theorem reject_ne_fail : rejectMsg ≠ failToRejectMsg := by decide

/-- C2: once the p-value has been computed, the verdict is the reject
string exactly when `p_value < alpha`, and the fail-to-reject string
otherwise, including at the boundary `p_value = alpha`. -/
theorem c2_reject_iff_p_lt_alpha (st : TwoSampleZTest) (p : ℚ)
    (hp : st.p_value = some p) :
    (st.compare_p_value_with_alpha = .ok rejectMsg ↔ p < st.alpha) ∧
    (st.alpha ≤ p → st.compare_p_value_with_alpha = .ok failToRejectMsg) := by
  have hcmp : st.compare_p_value_with_alpha =
      if p < st.alpha then .ok rejectMsg else .ok failToRejectMsg := by
    unfold TwoSampleZTest.compare_p_value_with_alpha
    rw [hp]
  rw [hcmp]
  by_cases hlt : p < st.alpha
  · rw [if_pos hlt]
    exact ⟨⟨fun _ => hlt, fun _ => rfl⟩, fun hle => absurd hlt (not_lt.mpr hle)⟩
  · rw [if_neg hlt]
    refine ⟨⟨fun h => ?_, fun h => absurd h hlt⟩, fun _ => rfl⟩
    exact absurd (Except.ok.inj h).symm reject_ne_fail

/-- A runner state sitting exactly at the decision boundary:
`p_value = alpha = 5/100`. -/
def boundarySt : TwoSampleZTest :=
  { sample1 := [1, 2], sample2 := [3, 4], alpha := 5/100,
    z_stat := none, p_value := some (5/100), z_critical := none }

/-- C2 witness: at the boundary `p_value = alpha` the verdict is the
fail-to-reject string. -/
theorem c2_witness :
    boundarySt.p_value = some (5/100) ∧
    (boundarySt.compare_p_value_with_alpha = .ok rejectMsg ↔
       (5/100 : ℚ) < boundarySt.alpha) ∧
    (boundarySt.alpha ≤ 5/100 →
       boundarySt.compare_p_value_with_alpha = .ok failToRejectMsg) :=
  ⟨rfl, c2_reject_iff_p_lt_alpha boundarySt (5/100) rfl⟩

/-- C4: calling `compare_p_value_with_alpha` while `p_value` is still
`None` fails with the out-of-order state error (the embedded exception of
the `None < alpha` comparison) instead of returning a verdict. -/
theorem c4_verdict_before_p_value_fails (st : TwoSampleZTest)
    (h : st.p_value = none) :
    st.compare_p_value_with_alpha = .error Err.stateError := by
  unfold TwoSampleZTest.compare_p_value_with_alpha
  rw [h]

/-- C4 witness: a freshly constructed runner. -/
theorem c4_witness :
    (TwoSampleZTest.init [1, 2] [3, 4] (5/100)).p_value = none ∧
    (TwoSampleZTest.init [1, 2] [3, 4] (5/100)).compare_p_value_with_alpha =
      .error Err.stateError :=
  ⟨rfl, c4_verdict_before_p_value_fails (TwoSampleZTest.init [1, 2] [3, 4] (5/100)) rfl⟩

/-- Verdict string stated by the spec for the reject branch, written for
comparison with the source's string. -/
def specRejectMsg : String :=
  "reject the null hypothesis — significant difference detected between the two means."

/-- Verdict string stated by the spec for the fail-to-reject branch,
written for comparison with the source's string. -/
def specFailToRejectMsg : String :=
  "fail to reject the null hypothesis — no significant difference detected between the two means."

/-- A runner state whose p-value 1/100 lies below alpha 5/100. -/
def rejectSt : TwoSampleZTest :=
  { sample1 := [1, 2], sample2 := [3, 4], alpha := 5/100,
    z_stat := none, p_value := some (1/100), z_critical := none }

/-- C7 counterexample: with `p_value = 1/100 < alpha = 5/100` the verdict
is the source's reject string, which is not the string the claim cites
character for character (the fail-to-reject strings differ as well). -/
theorem c7_counterexample :
    rejectSt.compare_p_value_with_alpha = .ok rejectMsg ∧
    rejectMsg ≠ specRejectMsg ∧ failToRejectMsg ≠ specFailToRejectMsg := by
  have hlt : (1 : ℚ)/100 < 5/100 := by norm_num
  have h1 : rejectSt.compare_p_value_with_alpha =
      if (1 : ℚ)/100 < 5/100 then .ok rejectMsg else .ok failToRejectMsg := rfl
  exact ⟨by rw [h1, if_pos hlt], by decide, by decide⟩

/-- C7 amended: once the p-value has been computed the verdict is one of
exactly two fixed strings — "Reject null hypothesis. There is a
significant difference between the means." when `p_value < alpha` and
"Fail to reject null hypothesis. There is no significant difference
between the means." otherwise. -/
theorem c7_amended_two_fixed_strings (st : TwoSampleZTest) (p : ℚ)
    (hp : st.p_value = some p) :
    st.compare_p_value_with_alpha =
      .ok (if p < st.alpha then rejectMsg else failToRejectMsg) ∧
    rejectMsg ≠ failToRejectMsg := by
  refine ⟨?_, reject_ne_fail⟩
  unfold TwoSampleZTest.compare_p_value_with_alpha
  rw [hp]
  by_cases hlt : p < st.alpha <;> simp [hlt]

/-- C7 amended witness: the reject branch at `p_value = 1/100`,
`alpha = 5/100`. -/
theorem c7_amended_witness :
    rejectSt.p_value = some (1/100) ∧
    (rejectSt.compare_p_value_with_alpha =
       .ok (if (1/100 : ℚ) < rejectSt.alpha then rejectMsg else failToRejectMsg) ∧
     rejectMsg ≠ failToRejectMsg) :=
  ⟨rfl, c7_amended_two_fixed_strings rejectSt (1/100) rfl⟩

/-- C8: `calculate_critical_value` returns the provider's standard-normal
inverse CDF at `1 - alpha/2` and caches it in `z_critical`. -/
theorem c8_critical_value_is_ppf (prov : StatsProviders)
    (st : TwoSampleZTest) (c : ℚ)
    (h : prov.norm_ppf (1 - st.alpha / 2) = .ok c) :
    st.calculate_critical_value prov =
      .ok (c, { st with z_critical := some c }) := by
  unfold TwoSampleZTest.calculate_critical_value
  rw [h]

/-- C8 witness: a provider whose quantile function returns 196/100. -/
theorem c8_witness :
    (constProv 1 (2/100) (196/100)).norm_ppf
        (1 - (TwoSampleZTest.init [1, 2] [3, 4] (5/100)).alpha / 2) =
      .ok (196/100) ∧
    (TwoSampleZTest.init [1, 2] [3, 4] (5/100)).calculate_critical_value
        (constProv 1 (2/100) (196/100)) =
      .ok (196/100, { TwoSampleZTest.init [1, 2] [3, 4] (5/100) with
                        z_critical := some (196/100) }) :=
  ⟨rfl, c8_critical_value_is_ppf (constProv 1 (2/100) (196/100))
     (TwoSampleZTest.init [1, 2] [3, 4] (5/100)) (196/100) rfl⟩

/-- A default concrete runner state used to instantiate theorems. -/
def sampleSt : TwoSampleZTest := TwoSampleZTest.init [1, 2] [3, 4] (5/100)

/-- Characterization of a successful `calculate_z_statistic`: the provider
succeeded and the returned state caches the statistic. -/
theorem calc_z_inv (prov : StatsProviders) (st st' : TwoSampleZTest) (z : ℚ)
    (h : st.calculate_z_statistic prov = .ok (z, st')) :
    ∃ p, prov.ttest_ind st.sample1 st.sample2 = .ok (z, p) ∧
      st' = { st with z_stat := some z } := by
  unfold TwoSampleZTest.calculate_z_statistic at h
  cases ht : prov.ttest_ind st.sample1 st.sample2 with
  | error e => rw [ht] at h; cases h
  | ok zp =>
    obtain ⟨z1, p1⟩ := zp
    rw [ht] at h
    injection h with h1
    injection h1 with hz hst
    subst hz; subst hst
    exact ⟨p1, rfl, rfl⟩

/-- Characterization of a successful `calculate_p_value`. -/
theorem calc_p_inv (prov : StatsProviders) (st st' : TwoSampleZTest) (p : ℚ)
    (h : st.calculate_p_value prov = .ok (p, st')) :
    ∃ z, prov.ttest_ind st.sample1 st.sample2 = .ok (z, p) ∧
      st' = { st with p_value := some p } := by
  unfold TwoSampleZTest.calculate_p_value at h
  cases ht : prov.ttest_ind st.sample1 st.sample2 with
  | error e => rw [ht] at h; cases h
  | ok zp =>
    obtain ⟨z1, p1⟩ := zp
    rw [ht] at h
    injection h with h1
    injection h1 with hp hst
    subst hp; subst hst
    exact ⟨z1, rfl, rfl⟩

/-- Characterization of a successful `calculate_critical_value`. -/
theorem calc_c_inv (prov : StatsProviders) (st st' : TwoSampleZTest) (c : ℚ)
    (h : st.calculate_critical_value prov = .ok (c, st')) :
    prov.norm_ppf (1 - st.alpha / 2) = .ok c ∧
      st' = { st with z_critical := some c } := by
  unfold TwoSampleZTest.calculate_critical_value at h
  cases hc : prov.norm_ppf (1 - st.alpha / 2) with
  | error e => rw [hc] at h; cases h
  | ok c1 =>
    rw [hc] at h
    injection h with h1
    injection h1 with hc1 hst
    subst hc1; subst hst
    exact ⟨rfl, rfl⟩

/-- Forward direction: a successful provider call determines
`calculate_z_statistic`. -/
theorem calc_z_of_ttest (prov : StatsProviders) (st : TwoSampleZTest)
    (z p : ℚ) (ht : prov.ttest_ind st.sample1 st.sample2 = .ok (z, p)) :
    st.calculate_z_statistic prov = .ok (z, { st with z_stat := some z }) := by
  unfold TwoSampleZTest.calculate_z_statistic
  rw [ht]

/-- Forward direction: a successful provider call determines
`calculate_p_value`. -/
theorem calc_p_of_ttest (prov : StatsProviders) (st : TwoSampleZTest)
    (z p : ℚ) (ht : prov.ttest_ind st.sample1 st.sample2 = .ok (z, p)) :
    st.calculate_p_value prov = .ok (p, { st with p_value := some p }) := by
  unfold TwoSampleZTest.calculate_p_value
  rw [ht]

/-- Forward direction: a successful quantile call determines
`calculate_critical_value`. -/
theorem calc_c_of_ppf (prov : StatsProviders) (st : TwoSampleZTest)
    (c : ℚ) (hc : prov.norm_ppf (1 - st.alpha / 2) = .ok c) :
    st.calculate_critical_value prov =
      .ok (c, { st with z_critical := some c }) := by
  unfold TwoSampleZTest.calculate_critical_value
  rw [hc]

/-- C3: the orchestrated `run_z_test` swallows a failure at any stage and
returns the fixed error string, while a direct call to an individual
compute method propagates the underlying error unmodified.  Two failure
scenarios are covered: the two-sample test itself failing, and the
quantile function failing after a successful two-sample test. -/
theorem c3_run_catches_methods_propagate (prov prov2 : StatsProviders)
    (st st2 : TwoSampleZTest) (e e2 : Err) (z p : ℚ)
    (ht : prov.ttest_ind st.sample1 st.sample2 = .error e)
    (h2t : prov2.ttest_ind st2.sample1 st2.sample2 = .ok (z, p))
    (h2p : prov2.norm_ppf (1 - st2.alpha / 2) = .error e2) :
    st.calculate_z_statistic prov = .error e ∧
    st.calculate_p_value prov = .error e ∧
    st2.calculate_critical_value prov2 = .error e2 ∧
    (st.run_z_test prov).1 = errorMsg ∧
    (st2.run_z_test prov2).1 = errorMsg := by
  refine ⟨?_, ?_, ?_, ?_, ?_⟩
  · unfold TwoSampleZTest.calculate_z_statistic; rw [ht]
  · unfold TwoSampleZTest.calculate_p_value; rw [ht]
  · unfold TwoSampleZTest.calculate_critical_value; rw [h2p]
  · unfold TwoSampleZTest.run_z_test TwoSampleZTest.calculate_z_statistic
    rw [ht]
  · simp only [TwoSampleZTest.run_z_test, TwoSampleZTest.calculate_z_statistic,
      TwoSampleZTest.calculate_p_value, TwoSampleZTest.calculate_critical_value,
      h2t, h2p]

/-- C3 witness: a provider whose two-sample test fails, and one whose
quantile function fails after a successful two-sample test. -/
theorem c3_witness :
    failTtestProv.ttest_ind sampleSt.sample1 sampleSt.sample2 =
      .error (Err.computationError "degenerate samples") ∧
    failPpfProv.ttest_ind sampleSt.sample1 sampleSt.sample2 = .ok (-2, 1/100) ∧
    failPpfProv.norm_ppf (1 - sampleSt.alpha / 2) =
      .error (Err.computationError "ppf domain") ∧
    (sampleSt.calculate_z_statistic failTtestProv =
       .error (Err.computationError "degenerate samples") ∧
     sampleSt.calculate_p_value failTtestProv =
       .error (Err.computationError "degenerate samples") ∧
     sampleSt.calculate_critical_value failPpfProv =
       .error (Err.computationError "ppf domain") ∧
     (sampleSt.run_z_test failTtestProv).1 = errorMsg ∧
     (sampleSt.run_z_test failPpfProv).1 = errorMsg) :=
  ⟨rfl, rfl, rfl,
   c3_run_catches_methods_propagate failTtestProv failPpfProv sampleSt sampleSt
     (Err.computationError "degenerate samples")
     (Err.computationError "ppf domain") (-2) (1/100) rfl rfl rfl⟩

/-- C9: calling each compute method a second time on the state produced by
the first call yields the same return value and the same state (idempotence
within one instance, given the deterministic providers of the model). -/
theorem c9_compute_methods_idempotent (prov : StatsProviders)
    (st st1 st2 st3 : TwoSampleZTest) (z p c : ℚ)
    (hz : st.calculate_z_statistic prov = .ok (z, st1))
    (hp : st.calculate_p_value prov = .ok (p, st2))
    (hc : st.calculate_critical_value prov = .ok (c, st3)) :
    st1.calculate_z_statistic prov = .ok (z, st1) ∧
    st2.calculate_p_value prov = .ok (p, st2) ∧
    st3.calculate_critical_value prov = .ok (c, st3) := by
  obtain ⟨p1, ht1, rfl⟩ := calc_z_inv prov st st1 z hz
  obtain ⟨z2, ht2, rfl⟩ := calc_p_inv prov st st2 p hp
  obtain ⟨hc3, rfl⟩ := calc_c_inv prov st st3 c hc
  exact ⟨calc_z_of_ttest prov _ z p1 ht1, calc_p_of_ttest prov _ z2 p ht2,
    calc_c_of_ppf prov _ c hc3⟩

/-- C9 witness: the constant provider on the default state. -/
theorem c9_witness :
    sampleSt.calculate_z_statistic (constProv 1 (2/100) (196/100)) =
      .ok (1, { sampleSt with z_stat := some 1 }) ∧
    sampleSt.calculate_p_value (constProv 1 (2/100) (196/100)) =
      .ok (2/100, { sampleSt with p_value := some (2/100) }) ∧
    sampleSt.calculate_critical_value (constProv 1 (2/100) (196/100)) =
      .ok (196/100, { sampleSt with z_critical := some (196/100) }) ∧
    (({ sampleSt with z_stat := some 1 } : TwoSampleZTest).calculate_z_statistic
        (constProv 1 (2/100) (196/100)) =
       .ok (1, { sampleSt with z_stat := some 1 }) ∧
     ({ sampleSt with p_value := some (2/100) } : TwoSampleZTest).calculate_p_value
        (constProv 1 (2/100) (196/100)) =
       .ok (2/100, { sampleSt with p_value := some (2/100) }) ∧
     ({ sampleSt with z_critical := some (196/100) } : TwoSampleZTest).calculate_critical_value
        (constProv 1 (2/100) (196/100)) =
       .ok (196/100, { sampleSt with z_critical := some (196/100) })) :=
  ⟨rfl, rfl, rfl,
   c9_compute_methods_idempotent (constProv 1 (2/100) (196/100)) sampleSt
     { sampleSt with z_stat := some 1 }
     { sampleSt with p_value := some (2/100) }
     { sampleSt with z_critical := some (196/100) }
     1 (2/100) (196/100) rfl rfl rfl⟩

/-- Running the whole test never changes the constructor inputs. -/
theorem run_state_preservesInputs (prov : StatsProviders)
    (st : TwoSampleZTest) : preservesInputs st (st.run_z_test prov).2 := by
  unfold TwoSampleZTest.run_z_test
  split
  · exact ⟨rfl, rfl, rfl⟩
  · rename_i z1 st1 h1
    obtain ⟨p1, ht1, rfl⟩ := calc_z_inv prov st st1 z1 h1
    split
    · exact ⟨rfl, rfl, rfl⟩
    · rename_i p2 st2 h2
      obtain ⟨z2, ht2, hst2⟩ := calc_p_inv prov _ st2 p2 h2
      subst hst2
      split
      · exact ⟨rfl, rfl, rfl⟩
      · rename_i c3 st3 h3
        obtain ⟨hp3, hst3⟩ := calc_c_inv prov _ st3 c3 h3
        subst hst3
        split
        · exact ⟨rfl, rfl, rfl⟩
        · exact ⟨rfl, rfl, rfl⟩

/-- C10: no operation of the runner modifies `sample1`, `sample2` or
`alpha`: each compute method's output state and the final state of a full
run keep the constructor inputs unchanged (`compare_p_value_with_alpha`
reads only `p_value` and `alpha` and its embedding returns no state at
all, so it cannot modify anything). -/
theorem c10_inputs_never_modified (prov : StatsProviders)
    (st st1 st2 st3 : TwoSampleZTest) (z p c : ℚ)
    (hz : st.calculate_z_statistic prov = .ok (z, st1))
    (hp : st.calculate_p_value prov = .ok (p, st2))
    (hc : st.calculate_critical_value prov = .ok (c, st3)) :
    preservesInputs st st1 ∧ preservesInputs st st2 ∧
    preservesInputs st st3 ∧
    preservesInputs st (st.run_z_test prov).2 := by
  obtain ⟨p1, ht1, rfl⟩ := calc_z_inv prov st st1 z hz
  obtain ⟨z2, ht2, rfl⟩ := calc_p_inv prov st st2 p hp
  obtain ⟨hc3, rfl⟩ := calc_c_inv prov st st3 c hc
  exact ⟨⟨rfl, rfl, rfl⟩, ⟨rfl, rfl, rfl⟩, ⟨rfl, rfl, rfl⟩,
    run_state_preservesInputs prov st⟩

/-- C10 witness: the constant provider on the default state. -/
theorem c10_witness :
    sampleSt.calculate_z_statistic (constProv 1 (2/100) (196/100)) =
      .ok (1, { sampleSt with z_stat := some 1 }) ∧
    sampleSt.calculate_p_value (constProv 1 (2/100) (196/100)) =
      .ok (2/100, { sampleSt with p_value := some (2/100) }) ∧
    sampleSt.calculate_critical_value (constProv 1 (2/100) (196/100)) =
      .ok (196/100, { sampleSt with z_critical := some (196/100) }) ∧
    (preservesInputs sampleSt { sampleSt with z_stat := some 1 } ∧
     preservesInputs sampleSt { sampleSt with p_value := some (2/100) } ∧
     preservesInputs sampleSt { sampleSt with z_critical := some (196/100) } ∧
     preservesInputs sampleSt
       (sampleSt.run_z_test (constProv 1 (2/100) (196/100))).2) :=
  ⟨rfl, rfl, rfl,
   c10_inputs_never_modified (constProv 1 (2/100) (196/100)) sampleSt
     { sampleSt with z_stat := some 1 }
     { sampleSt with p_value := some (2/100) }
     { sampleSt with z_critical := some (196/100) }
     1 (2/100) (196/100) rfl rfl rfl⟩

/-- Behaviour of `run_z_test` when both provider calls succeed: the
verdict is decided by `p < alpha` and all three fields are cached. -/
theorem run_of_ok (prov : StatsProviders) (st : TwoSampleZTest) (z p c : ℚ)
    (ht : prov.ttest_ind st.sample1 st.sample2 = .ok (z, p))
    (hc : prov.norm_ppf (1 - st.alpha / 2) = .ok c) :
    st.run_z_test prov =
      ((if p < st.alpha then rejectMsg else failToRejectMsg),
       { st with z_stat := some z, p_value := some p, z_critical := some c }) := by
  unfold TwoSampleZTest.run_z_test
  simp only [calc_z_of_ttest prov st z p ht,
    calc_p_of_ttest prov { st with z_stat := some z } z p ht,
    calc_c_of_ppf prov { st with z_stat := some z, p_value := some p } c hc,
    TwoSampleZTest.compare_p_value_with_alpha]
  by_cases hlt : p < st.alpha <;> simp [hlt]

/-- Behaviour of `run_z_test` when the two-sample test fails: the error
string is returned and the object is unchanged. -/
theorem run_of_ttest_error (prov : StatsProviders) (st : TwoSampleZTest)
    (e : Err) (ht : prov.ttest_ind st.sample1 st.sample2 = .error e) :
    st.run_z_test prov = (errorMsg, st) := by
  unfold TwoSampleZTest.run_z_test TwoSampleZTest.calculate_z_statistic
  rw [ht]

/-- Behaviour of `run_z_test` when the quantile call fails after a
successful two-sample test: the error string is returned while the first
two fields keep the values already assigned. -/
theorem run_of_ppf_error (prov : StatsProviders) (st : TwoSampleZTest)
    (z p : ℚ) (e : Err)
    (ht : prov.ttest_ind st.sample1 st.sample2 = .ok (z, p))
    (hp : prov.norm_ppf (1 - st.alpha / 2) = .error e) :
    st.run_z_test prov =
      (errorMsg, { st with z_stat := some z, p_value := some p }) := by
  unfold TwoSampleZTest.run_z_test
  simp only [calc_z_of_ttest prov st z p ht,
    calc_p_of_ttest prov { st with z_stat := some z } z p ht,
    TwoSampleZTest.calculate_critical_value, hp]

/-- Running the test a second time on the object a run produced returns
the same result string and the same final object state. -/
theorem run_z_test_idem (prov : StatsProviders) (st : TwoSampleZTest) :
    (st.run_z_test prov).2.run_z_test prov = st.run_z_test prov := by
  cases ht : prov.ttest_ind st.sample1 st.sample2 with
  | error e =>
    rw [run_of_ttest_error prov st e ht]
    exact run_of_ttest_error prov st e ht
  | ok zp =>
    obtain ⟨z, p⟩ := zp
    cases hc : prov.norm_ppf (1 - st.alpha / 2) with
    | error e =>
      rw [run_of_ppf_error prov st z p e ht hc]
      exact run_of_ppf_error prov
        { st with z_stat := some z, p_value := some p } z p e ht hc
    | ok c =>
      rw [run_of_ok prov st z p c ht hc]
      exact run_of_ok prov
        { st with z_stat := some z, p_value := some p, z_critical := some c }
        z p c ht hc

/-- C5: on a successful run each of the three fields holds exactly the
value the providers computed for it (computed once and cached); running
the test a second time on the produced object yields the same result
string and the same final state, so the overwrite of all three fields is
total — no partial overwrite is observable to a caller; and when a run
fails mid-sequence (here: the quantile step fails) the fixed error string
stands in place of the verdict. -/
theorem c5_cached_once_and_atomic_overwrite (prov prov2 : StatsProviders)
    (st st2 : TwoSampleZTest) (z p c : ℚ) (e : Err)
    (ht : prov.ttest_ind st.sample1 st.sample2 = .ok (z, p))
    (hc : prov.norm_ppf (1 - st.alpha / 2) = .ok c)
    (hp2 : prov2.norm_ppf (1 - st2.alpha / 2) = .error e) :
    ((st.run_z_test prov).2.z_stat = some z ∧
     (st.run_z_test prov).2.p_value = some p ∧
     (st.run_z_test prov).2.z_critical = some c) ∧
    (∀ (q : StatsProviders) (s : TwoSampleZTest),
       (s.run_z_test q).2.run_z_test q = s.run_z_test q) ∧
    (st2.run_z_test prov2).1 = errorMsg := by
  refine ⟨?_, fun q s => run_z_test_idem q s, ?_⟩
  · rw [run_of_ok prov st z p c ht hc]
    exact ⟨rfl, rfl, rfl⟩
  · cases ht2 : prov2.ttest_ind st2.sample1 st2.sample2 with
    | error e2 => rw [run_of_ttest_error prov2 st2 e2 ht2]
    | ok zp =>
      obtain ⟨z2, p2⟩ := zp
      rw [run_of_ppf_error prov2 st2 z2 p2 e ht2 hp2]

/-- C5 witness: the constant provider for the successful run and the
failing-quantile provider for the failing run. -/
theorem c5_witness :
    (constProv 1 (2/100) (196/100)).ttest_ind sampleSt.sample1
      sampleSt.sample2 = .ok (1, 2/100) ∧
    (constProv 1 (2/100) (196/100)).norm_ppf (1 - sampleSt.alpha / 2) =
      .ok (196/100) ∧
    failPpfProv.norm_ppf (1 - sampleSt.alpha / 2) =
      .error (Err.computationError "ppf domain") ∧
    (((sampleSt.run_z_test (constProv 1 (2/100) (196/100))).2.z_stat = some 1 ∧
      (sampleSt.run_z_test (constProv 1 (2/100) (196/100))).2.p_value =
        some (2/100) ∧
      (sampleSt.run_z_test (constProv 1 (2/100) (196/100))).2.z_critical =
        some (196/100)) ∧
     (∀ (q : StatsProviders) (s : TwoSampleZTest),
        (s.run_z_test q).2.run_z_test q = s.run_z_test q) ∧
     (sampleSt.run_z_test failPpfProv).1 = errorMsg) :=
  ⟨rfl, rfl, rfl,
   c5_cached_once_and_atomic_overwrite (constProv 1 (2/100) (196/100))
     failPpfProv sampleSt sampleSt 1 (2/100) (196/100)
     (Err.computationError "ppf domain") rfl rfl rfl⟩

/-- Trace of a fully successful run: the four orchestrated methods are
entered in the fixed order. -/
theorem trace_of_ok (prov : StatsProviders) (st : TwoSampleZTest)
    (z p c : ℚ)
    (ht : prov.ttest_ind st.sample1 st.sample2 = .ok (z, p))
    (hc : prov.norm_ppf (1 - st.alpha / 2) = .ok c) :
    st.run_z_test_trace prov =
      ([Step.computeStatistic, Step.computePValue, Step.computeCriticalValue,
        Step.verdict],
       (if p < st.alpha then rejectMsg else failToRejectMsg),
       { st with z_stat := some z, p_value := some p, z_critical := some c }) := by
  unfold TwoSampleZTest.run_z_test_trace
  simp only [calc_z_of_ttest prov st z p ht,
    calc_p_of_ttest prov { st with z_stat := some z } z p ht,
    calc_c_of_ppf prov { st with z_stat := some z, p_value := some p } c hc,
    TwoSampleZTest.compare_p_value_with_alpha]
  by_cases hlt : p < st.alpha <;> simp [hlt]

/-- C6: a run that does not fail has invoked the four methods in the
fixed order ComputeStatistic, ComputePValue, ComputeCriticalValue,
Verdict — the instrumented trace equals that list and agrees with
`run_z_test` — and the verdict never reads the cached critical value:
`compare_p_value_with_alpha` is invariant under any change of
`z_critical`, so the decision depends only on the p-value-versus-alpha
comparison. -/
theorem c6_fixed_order_and_critical_unused (prov : StatsProviders)
    (st : TwoSampleZTest) (h : (st.run_z_test prov).1 ≠ errorMsg) :
    st.run_z_test_trace prov =
      ([Step.computeStatistic, Step.computePValue, Step.computeCriticalValue,
        Step.verdict], st.run_z_test prov) ∧
    (∀ (s : TwoSampleZTest) (oc : Option ℚ),
       TwoSampleZTest.compare_p_value_with_alpha { s with z_critical := oc } =
         s.compare_p_value_with_alpha) := by
  refine ⟨?_, fun s oc => rfl⟩
  cases ht : prov.ttest_ind st.sample1 st.sample2 with
  | error e =>
    rw [run_of_ttest_error prov st e ht] at h
    exact absurd rfl h
  | ok zp =>
    obtain ⟨z, p⟩ := zp
    cases hc : prov.norm_ppf (1 - st.alpha / 2) with
    | error e =>
      rw [run_of_ppf_error prov st z p e ht hc] at h
      exact absurd rfl h
    | ok c =>
      rw [trace_of_ok prov st z p c ht hc, run_of_ok prov st z p c ht hc]

/-- C6 witness: a successful run with the constant provider, whose result
is the reject verdict, not the error string. -/
theorem c6_witness :
    (sampleSt.run_z_test (constProv 1 (2/100) (196/100))).1 ≠ errorMsg ∧
    (sampleSt.run_z_test_trace (constProv 1 (2/100) (196/100)) =
       ([Step.computeStatistic, Step.computePValue, Step.computeCriticalValue,
         Step.verdict],
        sampleSt.run_z_test (constProv 1 (2/100) (196/100))) ∧
     (∀ (s : TwoSampleZTest) (oc : Option ℚ),
        TwoSampleZTest.compare_p_value_with_alpha
            { s with z_critical := oc } =
          s.compare_p_value_with_alpha)) :=
  have hne : (sampleSt.run_z_test (constProv 1 (2/100) (196/100))).1 ≠
      errorMsg := by
    rw [run_of_ok (constProv 1 (2/100) (196/100)) sampleSt 1 (2/100)
      (196/100) rfl rfl]
    rw [if_pos (show (2:ℚ)/100 < sampleSt.alpha by
      norm_num [sampleSt, TwoSampleZTest.init])]
    decide
  ⟨hne, c6_fixed_order_and_critical_unused (constProv 1 (2/100) (196/100))
    sampleSt hne⟩
